import Mathlib

/-!
Verification development for the hungryboys order backend (src/index.js).

We shallowly embed the MongoDB-backed orders API: the profile loader
(`loadUserProfile`), order creation (`POST /api/orders`), order listing
(`GET /api/orders`), status update (`PATCH /api/orders/:id`) and the
restaurant-scoped listing (`GET /api/orders/restaurant/:restaurantId`).

JavaScript truthiness on the modelled value space is made explicit:
an absent or empty string is falsy, an absent or zero number is falsy.
MongoDB ObjectIds are modelled as their 24-character hex rendering;
`new ObjectId(s)` succeeds exactly when `s` is such a string.
-/

/-- JS truthiness of an optional string (`!x` is true for `undefined`/`""`). -/
def strTruthy : Option String → Bool
  | none => false
  | some s => s ≠ ""

/-- JS truthiness of an optional number (`!x` is true for `undefined`/`0`). -/
def numTruthy : Option Int → Bool
  | none => false
  | some n => n ≠ 0

/-- `a || b` on optional strings (JS logical-or with truthiness). -/
def jsOr (a b : Option String) : Option String :=
  if strTruthy a then a else b

/-- `a || null` on an optional string: keep it only when truthy. -/
def orNull (a : Option String) : Option String :=
  if strTruthy a then a else none

/-- Roles recognised by `loadUserProfile`; `other` stands for any further string. -/
inductive Role where
  | user
  | campusAdmin
  | superAdmin
  | restaurantManager
  | other (s : String)
deriving DecidableEq, Repr, Inhabited

/-- `loadUserProfile`'s role allow-list (src/index.js line 684). -/
def recognizedRole : Role → Bool
  | .other _ => false
  | _ => true

/-- A Firestore user profile as read by `loadUserProfile`. -/
structure Profile where
  role : Role
  campusId : Option String := none
  universityId : Option String := none
  restaurantId : Option String := none
deriving DecidableEq, Repr, Inhabited

def isSuperAdmin (p : Profile) : Bool := p.role = .superAdmin
def isCampusAdmin (p : Profile) : Bool := p.role = .campusAdmin
def isRestaurantManager (p : Profile) : Bool := p.role = .restaurantManager

/-- An error response: HTTP status plus message string. -/
structure ErrResp where
  status : Nat
  msg : String
deriving DecidableEq, Repr, Inhabited

/-- `loadUserProfile` (src/index.js lines 678-692): missing document → 403,
unrecognised role → 403, otherwise the profile is attached to the request. -/
def loadUserProfile (doc : Option Profile) : Except ErrResp Profile :=
  match doc with
  | none => .error ⟨403, "User profile not found"⟩
  | some p =>
    if recognizedRole p.role then .ok p
    else .error ⟨403, "Unauthorized role"⟩

/-- A Mongo `_id`: either a proper ObjectId (rendered as its hex string) or a
legacy plain-string identifier. -/
inductive MongoId where
  | objId (hex : String) : MongoId
  | strId (s : String) : MongoId
deriving DecidableEq, Repr, Inhabited

/-- Whether `new ObjectId(s)` succeeds: `s` is a 24-character hex string. -/
def validObjectIdString (s : String) : Bool :=
  s.length = 24 && s.toList.all (fun c => c.isDigit || ("abcdefABCDEF".toList.contains c))

/-- The dual-identifier filter `$or: [{_id: new ObjectId(id)}, {_id: id}]`
(src/index.js lines 1025-1027): the ObjectId branch exists only when the cast
succeeds. -/
def dualIdMatch (id : String) : MongoId → Bool
  | .objId h => validObjectIdString id && h = id
  | .strId s => s = id

/-- One structured cart line item as the client submits it (the code reads
`restaurantId`, `restaurantName`, `price` and `quantity`). -/
structure CartItem where
  restaurantId : Option String := none
  restaurantName : Option String := none
  price : Int := 0
  quantity : Int := 0
deriving DecidableEq, Repr, Inhabited

/-- The client-supplied `cartItems` field: absent, a legacy string, or a
structured array. -/
inductive CartField where
  | absent
  | str (s : String)
  | arr (items : List CartItem)
deriving DecidableEq, Repr, Inhabited

/-- The stored `cartItems` field of an order document: a string for documents
written by the creation endpoint, an array for legacy/foreign documents, or
null when the endpoint had nothing to serialise. -/
inductive StoredCart where
  | str (s : String)
  | arr (items : List CartItem)
  | nullv
deriving DecidableEq, Repr, Inhabited

/-- A crude `JSON.stringify` for a cart item; the exact text is never
inspected by the code, only its being a string matters. -/
def cartItemJson (it : CartItem) : String :=
  "\x7b\"restaurantId\":" ++ (match it.restaurantId with | some r => "\"" ++ r ++ "\"" | none => "null") ++
    ",\"restaurantName\":" ++ (match it.restaurantName with | some r => "\"" ++ r ++ "\"" | none => "null") ++
    ",\"price\":" ++ toString it.price ++ ",\"quantity\":" ++ toString it.quantity ++ "\x7d"

/-- `JSON.stringify` of a structured cart list. -/
def stringifyCart (items : List CartItem) : String :=
  "[" ++ String.intercalate "," (items.map cartItemJson) ++ "]"

/-- JS whitespace as relevant to `String.prototype.trim`. -/
def isWs (c : Char) : Bool := c = ' ' || c = '\t' || c = '\n' || c = '\r'

/-- JS `String.prototype.trim`: drop leading and trailing whitespace. -/
def jsTrim (s : String) : String :=
  String.mk (((s.toList.dropWhile isWs).reverse.dropWhile isWs).reverse)

/-- JS `Set` de-duplication: keep the first occurrence of each element. -/
def dedupFirst (seen : List String) : List String → List String
  | [] => []
  | x :: xs => if x ∈ seen then dedupFirst seen xs else x :: dedupFirst (x :: seen) xs

/-- The stored `restaurantNames` derivation (src/index.js lines 948-950):
present only when the raw list is a non-empty array; its value trims every
name, drops blanks (`filter(Boolean)`) and de-duplicates via a `Set`. -/
def deriveRestaurantNames (raw : Option (List String)) : Option (List String) :=
  match raw with
  | some l =>
    if l.length > 0 then
      some (dedupFirst [] ((l.map jsTrim).filter (fun s => s ≠ "")))
    else none
  | none => none

/-- A persisted order document (the `orderDoc` of src/index.js lines 931-958,
with `_id` as assigned by the store and both timestamps abstracted to the
creation instant `createdAt`). -/
structure OrderDoc where
  mongoId : MongoId
  universityId : Option String := none
  campusId : String
  universityName : Option String := none
  campusName : Option String := none
  firstName : String
  lastName : Option String := none
  phone : String
  email : Option String := none
  gender : String
  persons : Option Int := none
  deliveryCharge : Option Int := none
  itemTotal : Option Int := none
  grandTotal : Int
  cartItems : StoredCart
  cartItemsArray : List CartItem := []
  restaurantNames : Option (List String) := none
  createdAt : Nat := 0
  accountTitle : Option String := none
  bankName : Option String := none
  screenshotURL : Option String := none
  specialInstruction : Option String := none
  status : String := "pending"
deriving DecidableEq, Repr, Inhabited

/-- The raw body of a `POST /api/orders` request (src/index.js lines 873-895). -/
structure CreateReq where
  universityId : Option String := none
  campusId : Option String := none
  universityName : Option String := none
  campusName : Option String := none
  firstName : Option String := none
  lastName : Option String := none
  phone : Option String := none
  email : Option String := none
  gender : Option String := none
  persons : Option Int := none
  deliveryCharge : Option Int := none
  itemTotal : Option Int := none
  grandTotal : Option Int := none
  cartItems : CartField := .absent
  cartItemsFormatted : Option String := none
  restaurantNames : Option (List String) := none
  accountTitle : Option String := none
  bankName : Option String := none
  screenshotURL : Option String := none
  specialInstruction : Option String := none
  recaptchaToken : Option String := none
deriving DecidableEq, Repr, Inhabited

/-- Outcome of one call to the external reCAPTCHA verification service:
success, reported failure, or a thrown network error. -/
inductive RecapResult where
  | success
  | failure
  | unreachable
deriving DecidableEq, Repr, Inhabited

/-- The stored string form of the cart (src/index.js line 945):
`cartItemsFormatted || (typeof cartItems === 'string' ? cartItems :
JSON.stringify(cartItems))`. -/
def storedCartString (fmt : Option String) : CartField → StoredCart
  | .str s => match jsOr fmt (some s) with
    | some t => .str t
    | none => .nullv
  | .arr items => match jsOr fmt (some (stringifyCart items)) with
    | some t => .str t
    | none => .nullv
  | .absent => if strTruthy fmt then .str (fmt.getD "") else .nullv

/-- The stored array form of the cart (src/index.js line 946):
`Array.isArray(cartItems) ? cartItems : []`. -/
def storedCartArray : CartField → List CartItem
  | .arr items => items
  | _ => []

/-- Whether the reCAPTCHA phase of `POST /api/orders` (src/index.js lines
900-913) lets the request through: the service is consulted only when the
token and the configured secret are both truthy. -/
def recaptchaPasses (secret : Option String) (verify : String → RecapResult)
    (tok : Option String) : Bool :=
  if strTruthy tok && strTruthy secret then
    verify (tok.getD "") = .success
  else true

/-- The campus check, required-field check and document construction of
`POST /api/orders` (src/index.js lines 915-962), i.e. everything after the
reCAPTCHA gate. `newId` is the `_id` the store assigns, `now` the creation
instant. -/
def createOrderPostGate (userEmail : Option String) (prof : Profile)
    (newId : MongoId) (now : Nat) (req : CreateReq) : Except ErrResp OrderDoc :=
  if !strTruthy prof.campusId then
    .error ⟨403, "No campus assigned to user profile"⟩
  else if !strTruthy req.campusId || req.campusId ≠ prof.campusId then
    .error ⟨403, "You can only place orders from your assigned campus. Please switch back to your campus in the navbar."⟩
  else if !(strTruthy req.firstName && strTruthy req.phone &&
      strTruthy req.gender && numTruthy req.grandTotal) then
    .error ⟨400, "Missing required order fields"⟩
  else
    .ok {
      mongoId := newId
      universityId := jsOr req.universityId (orNull prof.universityId)
      campusId := req.campusId.getD ""
      universityName := orNull req.universityName
      campusName := orNull req.campusName
      firstName := req.firstName.getD ""
      lastName := orNull req.lastName
      phone := req.phone.getD ""
      email := jsOr req.email (orNull userEmail)
      gender := req.gender.getD ""
      persons := req.persons
      deliveryCharge := req.deliveryCharge
      itemTotal := req.itemTotal
      grandTotal := req.grandTotal.getD 0
      cartItems := storedCartString req.cartItemsFormatted req.cartItems
      cartItemsArray := storedCartArray req.cartItems
      restaurantNames := deriveRestaurantNames req.restaurantNames
      createdAt := now
      accountTitle := orNull req.accountTitle
      bankName := orNull req.bankName
      screenshotURL := orNull req.screenshotURL
      specialInstruction := orNull req.specialInstruction
      status := "pending" }

/-- `POST /api/orders` (src/index.js lines 870-967): the reCAPTCHA gate
(lines 900-913: a reported failure and a thrown service error both yield the
same 400) followed by the campus/field checks and document construction. -/
def createOrder (secret : Option String) (verify : String → RecapResult)
    (userEmail : Option String) (prof : Profile) (newId : MongoId) (now : Nat)
    (req : CreateReq) : Except ErrResp OrderDoc :=
  if recaptchaPasses secret verify req.recaptchaToken then
    createOrderPostGate userEmail prof newId now req
  else
    .error ⟨400, "reCAPTCHA verification failed"⟩

/-- The endpoint's effect on the order store: `insertOne` runs only on the
success path (the insert at src/index.js line 960 is reached only after all
checks pass). Returns the new store contents and the response. -/
def createOrderApply (secret : Option String) (verify : String → RecapResult)
    (userEmail : Option String) (prof : Profile) (newId : MongoId) (now : Nat)
    (req : CreateReq) (store : List OrderDoc) :
    List OrderDoc × Except ErrResp OrderDoc :=
  match createOrder secret verify userEmail prof newId now req with
  | .ok d => (store ++ [d], .ok d)
  | .error e => (store, .error e)

/-- Sort key relation for order listings: `sort({createdAt: -1})`, i.e.
newest first. -/
def byNewest (a b : OrderDoc) : Prop := b.createdAt ≤ a.createdAt

instance : DecidableRel byNewest := fun a b => Nat.decLe b.createdAt a.createdAt

instance : IsTotal OrderDoc byNewest := ⟨fun a b => Nat.le_total b.createdAt a.createdAt⟩

instance : IsTrans OrderDoc byNewest := ⟨fun _ _ _ hab hbc => Nat.le_trans hbc hab⟩

/-- Mongo's `.limit(n)`: `0` means "no limit". -/
def mongoLimit (n : Nat) (l : List OrderDoc) : List OrderDoc :=
  if n = 0 then l else l.take n

/-- The role-derived filter of `GET /api/orders` (src/index.js line 977):
empty for a super admin, `{campusId: profile.campusId}` otherwise. -/
def listBaseFilter (p : Profile) (o : OrderDoc) : Bool :=
  if isSuperAdmin p then true else some o.campusId = p.campusId

/-- The full find filter of `GET /api/orders`, with the optional `status`
query parameter (src/index.js line 979; a query parameter is a string, and
`if (status)` skips the empty string). -/
def listFilter (p : Profile) (statusQ : Option String) (o : OrderDoc) : Bool :=
  listBaseFilter p o && (if strTruthy statusQ then o.status = statusQ.getD "" else true)

/-- `GET /api/orders` (src/index.js lines 970-989): role-scoped find, sorted
newest first, limited. -/
def listOrders (p : Profile) (store : List OrderDoc) (statusQ : Option String)
    (limit : Nat) : List OrderDoc :=
  mongoLimit limit ((store.filter (listFilter p statusQ)).insertionSort byNewest)

/-- The whole `GET /api/orders` pipeline after token verification: profile
loading then the scoped listing (no role restriction of its own). -/
def getOrdersEndpoint (doc : Option Profile) (store : List OrderDoc)
    (statusQ : Option String) (limit : Nat) : Except ErrResp (List OrderDoc) :=
  (loadUserProfile doc).map fun p => listOrders p store statusQ limit

/-- The response of `PATCH /api/orders/:id`. -/
inductive PatchResp where
  | forbiddenSuper
  | badRequest
  | forbiddenRole
  | notFound
  | notFoundAfter
  | updated (doc : OrderDoc)
deriving DecidableEq, Repr, Inhabited

/-- HTTP status of each `PATCH /api/orders/:id` response. -/
def PatchResp.httpStatus : PatchResp → Nat
  | .forbiddenSuper => 403
  | .badRequest => 400
  | .forbiddenRole => 403
  | .notFound => 404
  | .notFoundAfter => 404
  | .updated _ => 200

/-- Mongo match of `{'cartItems.restaurantId': rid}` against the stored
`cartItems` field: path traversal finds `restaurantId` only inside an array
of sub-documents, never inside a string. -/
def cartItemsFieldHasRestaurantId (c : StoredCart) (rid : Option String) : Bool :=
  match c with
  | .arr items => rid.isSome && items.any (fun it => it.restaurantId = rid)
  | _ => false

/-- The role-scoped update filter of `PATCH /api/orders/:id`
(src/index.js lines 1031-1038), `none` when the role is neither campus admin
nor restaurant manager. -/
def patchFilter (p : Profile) (id : String) : Option (OrderDoc → Bool) :=
  if isCampusAdmin p then
    some (fun o => dualIdMatch id o.mongoId && some o.campusId = p.campusId)
  else if isRestaurantManager p then
    some (fun o => dualIdMatch id o.mongoId &&
      cartItemsFieldHasRestaurantId o.cartItems p.restaurantId)
  else none

/-- `updateOne`: rewrite the first document matching `f` with `g`; `none`
when nothing matches (`matchedCount === 0`). -/
def updateFirst (f : OrderDoc → Bool) (g : OrderDoc → OrderDoc) :
    List OrderDoc → Option (List OrderDoc)
  | [] => none
  | o :: os =>
    if f o then some (g o :: os)
    else (updateFirst f g os).map (o :: ·)

/-- `PATCH /api/orders/:id` (src/index.js lines 1011-1049): super admins are
rejected first, then the missing-status check, then the role-scoped dual-id
`updateOne` followed by a `findOne` of the updated document. Returns the
store contents afterwards together with the response. -/
def patchOrder (p : Profile) (store : List OrderDoc) (id : String)
    (status : Option String) : List OrderDoc × PatchResp :=
  if isSuperAdmin p then (store, .forbiddenSuper)
  else if !strTruthy status then (store, .badRequest)
  else
    match patchFilter p id with
    | none => (store, .forbiddenRole)
    | some f =>
      match updateFirst f (fun o => { o with status := status.getD "" }) store with
      | none => (store, .notFound)
      | some store' =>
        match store'.find? f with
        | none => (store', .notFoundAfter)
        | some d => (store', .updated d)

/-- A restaurant document, as far as the orders API reads it. -/
structure RestaurantDoc where
  mongoId : MongoId
  name : String
  campusId : Option String := none
deriving DecidableEq, Repr, Inhabited

/-- The find filter of `GET /api/orders/restaurant/:restaurantId`
(src/index.js lines 1156-1162): the order mentions the restaurant in its
structured cart (`cartItemsArray.restaurantId`) or in its
`restaurantNames` array. -/
def restFindFilter (rid rname : String) (o : OrderDoc) : Bool :=
  o.cartItemsArray.any (fun it => it.restaurantId = some rid) ||
    (match o.restaurantNames with
     | some ns => ns.contains rname
     | none => false)

/-- One entry of the restaurant-scoped listing: the order spread together
with overriding `cartItems` and `itemsTotal` fields. -/
structure RestOrderOut where
  base : OrderDoc
  cartItems : StoredCart
  itemsTotal : Int
deriving DecidableEq, Repr, Inhabited

/-- Whether a line item belongs to the restaurant in the read-back filter
(src/index.js lines 1171-1173): id or name matches. -/
def itemBelongs (rid rname : String) (it : CartItem) : Bool :=
  it.restaurantId = some rid || it.restaurantName = some rname

/-- `price * quantity` summed over a list of items (the `reduce` at
src/index.js line 1179). -/
def itemsSum (items : List CartItem) : Int :=
  items.foldl (fun s it => s + it.price * it.quantity) 0

/-- Per-order shaping of the restaurant-scoped listing (src/index.js lines
1168-1189): orders with a non-empty structured cart are narrowed to the
restaurant's items with a recomputed `itemsTotal`; legacy orders pass
through with `itemTotal || 0`. -/
def restTransform (rid rname : String) (o : OrderDoc) : RestOrderOut :=
  if o.cartItemsArray.length > 0 then
    let restaurantItems := o.cartItemsArray.filter (itemBelongs rid rname)
    { base := o, cartItems := .arr restaurantItems, itemsTotal := itemsSum restaurantItems }
  else
    { base := o, cartItems := o.cartItems,
      itemsTotal := if numTruthy o.itemTotal then o.itemTotal.getD 0 else 0 }

/-- `GET /api/orders/restaurant/:restaurantId` (src/index.js lines
1122-1196): manager-only, own restaurant only, dual-id restaurant lookup,
then the filtered, sorted, limited and per-restaurant-shaped listing. -/
def restaurantOrders (p : Profile) (restaurants : List RestaurantDoc)
    (store : List OrderDoc) (ridParam : String) (limit : Nat) :
    Except ErrResp (List RestOrderOut) :=
  if !isRestaurantManager p then
    .error ⟨403, "Restaurant manager only"⟩
  else if p.restaurantId ≠ some ridParam then
    .error ⟨403, "You can only access orders for your assigned restaurant"⟩
  else
    match restaurants.find? (fun r => dualIdMatch ridParam r.mongoId) with
    | none => .error ⟨404, "Restaurant not found"⟩
    | some r =>
      .ok ((mongoLimit limit
        ((store.filter (restFindFilter ridParam r.name)).insertionSort byNewest)).map
          (restTransform ridParam r.name))

/-! ### General lemmas about the model -/

theorem strTruthy_iff {o : Option String} :
    strTruthy o = true ↔ ∃ c, o = some c ∧ c ≠ "" := by
  cases o <;> simp [strTruthy]

theorem mongoLimit_of_length_le {n : Nat} {l : List OrderDoc}
    (h : l.length ≤ n) : mongoLimit n l = l := by
  unfold mongoLimit
  split
  · rfl
  · exact List.take_of_length_le h

theorem mem_dedupFirst {x : String} :
    ∀ (seen l : List String), x ∈ dedupFirst seen l ↔ x ∈ l ∧ x ∉ seen := by
  intro seen l
  induction l generalizing seen with
  | nil => simp [dedupFirst]
  | cons y ys ih =>
    by_cases hy : y ∈ seen
    · rw [dedupFirst, if_pos hy, ih]
      constructor
      · rintro ⟨hmem, hns⟩
        exact ⟨List.mem_cons_of_mem _ hmem, hns⟩
      · rintro ⟨hmem, hns⟩
        rcases List.mem_cons.mp hmem with hxy | hmem'
        · exact absurd (hxy ▸ hy) hns
        · exact ⟨hmem', hns⟩
    · rw [dedupFirst, if_neg hy]
      constructor
      · intro hmem
        rcases List.mem_cons.mp hmem with hxy | hmem'
        · exact ⟨hxy ▸ List.mem_cons_self y ys, hxy ▸ hy⟩
        · obtain ⟨hys, hns⟩ := (ih (y :: seen)).mp hmem'
          exact ⟨List.mem_cons_of_mem _ hys, fun hc => hns (List.mem_cons_of_mem _ hc)⟩
      · rintro ⟨hmem, hns⟩
        rcases List.mem_cons.mp hmem with hxy | hmem'
        · exact hxy ▸ List.mem_cons_self _ _
        · by_cases hxy : x = y
          · exact hxy ▸ List.mem_cons_self _ _
          · exact List.mem_cons_of_mem _ ((ih (y :: seen)).mpr
              ⟨hmem', fun hc => (List.mem_cons.mp hc).elim hxy hns⟩)

theorem nodup_dedupFirst : ∀ (seen l : List String), (dedupFirst seen l).Nodup := by
  intro seen l
  induction l generalizing seen with
  | nil => simp [dedupFirst]
  | cons y ys ih =>
    by_cases hy : y ∈ seen
    · rw [dedupFirst, if_pos hy]; exact ih seen
    · rw [dedupFirst, if_neg hy]
      refine List.nodup_cons.mpr ⟨fun hc => ?_, ih (y :: seen)⟩
      exact ((mem_dedupFirst _ _).mp hc).2 (List.mem_cons_self _ _)

theorem updateFirst_isSome {f : OrderDoc → Bool} {g : OrderDoc → OrderDoc} :
    ∀ {l : List OrderDoc}, (∃ o ∈ l, f o = true) →
      ∃ l', updateFirst f g l = some l' := by
  intro l h
  induction l with
  | nil => simp at h
  | cons o os ih =>
    by_cases ho : f o = true
    · exact ⟨g o :: os, by simp [updateFirst, ho]⟩
    · obtain ⟨o', ho', hf⟩ := h
      rcases List.mem_cons.mp ho' with rfl | hmem
      · exact absurd hf ho
      · obtain ⟨l', hl'⟩ := ih ⟨o', hmem, hf⟩
        exact ⟨o :: l', by simp [updateFirst, ho, hl']⟩

theorem updateFirst_eq_none {f : OrderDoc → Bool} {g : OrderDoc → OrderDoc} :
    ∀ {l : List OrderDoc}, (∀ o ∈ l, f o = false) →
      updateFirst f g l = none := by
  intro l h
  induction l with
  | nil => rfl
  | cons o os ih =>
    have ho := h o (List.mem_cons_self _ _)
    rw [updateFirst, if_neg (by simp [ho]), ih (fun o' ho' => h o' (List.mem_cons_of_mem _ ho'))]
    rfl

theorem updateFirst_find? {f : OrderDoc → Bool} {g : OrderDoc → OrderDoc}
    (hg : ∀ o, f o = true → f (g o) = true) :
    ∀ {l l' : List OrderDoc}, updateFirst f g l = some l' →
      ∃ d, l'.find? f = some d := by
  intro l
  induction l with
  | nil => intro l' h; simp [updateFirst] at h
  | cons o os ih =>
    intro l' h
    by_cases ho : f o = true
    · rw [updateFirst, if_pos ho] at h
      cases h
      exact ⟨g o, by simp [List.find?, hg o ho]⟩
    · rw [updateFirst, if_neg ho] at h
      cases hrec : updateFirst f g os with
      | none => rw [hrec] at h; simp at h
      | some t =>
        rw [hrec] at h
        cases h
        obtain ⟨d, hd⟩ := ih hrec
        refine ⟨d, ?_⟩
        simp only [List.find?]
        rw [Bool.not_eq_true] at ho
        rw [ho]
        exact hd

/-- On the success path, every guard of `POST /api/orders` was passed. -/
theorem createOrderPostGate_ok_conds {userEmail prof newId now req d}
    (h : createOrderPostGate userEmail prof newId now req = .ok d) :
    strTruthy prof.campusId = true ∧ strTruthy req.campusId = true ∧
      req.campusId = prof.campusId ∧
      strTruthy req.firstName = true ∧ strTruthy req.phone = true ∧
      strTruthy req.gender = true ∧ numTruthy req.grandTotal = true := by
  unfold createOrderPostGate at h
  split at h
  · exact absurd h (by simp)
  · split at h
    · exact absurd h (by simp)
    · split at h
      · exact absurd h (by simp)
      · rename_i h1 h2 h3
        simp only [Bool.not_eq_true', Bool.not_eq_false] at h1
        simp only [Bool.or_eq_true, Bool.not_eq_true', decide_eq_true_eq, not_or,
          Bool.not_eq_false] at h2
        simp only [Bool.not_eq_true', Bool.not_eq_false, Bool.and_eq_true] at h3
        exact ⟨h1, h2.1, not_not.mp h2.2, h3.1.1.1, h3.1.1.2, h3.1.2, h3.2⟩

/-- On the success path, the persisted document is exactly the `orderDoc`
of src/index.js lines 931-958. -/
theorem createOrderPostGate_ok_eq {userEmail prof newId now req d}
    (h : createOrderPostGate userEmail prof newId now req = .ok d) :
    d = { mongoId := newId
          universityId := jsOr req.universityId (orNull prof.universityId)
          campusId := req.campusId.getD ""
          universityName := orNull req.universityName
          campusName := orNull req.campusName
          firstName := req.firstName.getD ""
          lastName := orNull req.lastName
          phone := req.phone.getD ""
          email := jsOr req.email (orNull userEmail)
          gender := req.gender.getD ""
          persons := req.persons
          deliveryCharge := req.deliveryCharge
          itemTotal := req.itemTotal
          grandTotal := req.grandTotal.getD 0
          cartItems := storedCartString req.cartItemsFormatted req.cartItems
          cartItemsArray := storedCartArray req.cartItems
          restaurantNames := deriveRestaurantNames req.restaurantNames
          createdAt := now
          accountTitle := orNull req.accountTitle
          bankName := orNull req.bankName
          screenshotURL := orNull req.screenshotURL
          specialInstruction := orNull req.specialInstruction
          status := "pending" } := by
  unfold createOrderPostGate at h
  split at h
  · exact absurd h (by simp)
  · split at h
    · exact absurd h (by simp)
    · split at h
      · exact absurd h (by simp)
      · exact (Except.ok.inj h).symm

/-- `createOrder` succeeds exactly when the reCAPTCHA gate lets the request
through and the post-gate pipeline succeeds. -/
theorem createOrder_ok_iff {secret verify userEmail prof newId now req d} :
    createOrder secret verify userEmail prof newId now req = .ok d ↔
      recaptchaPasses secret verify req.recaptchaToken = true ∧
        createOrderPostGate userEmail prof newId now req = .ok d := by
  unfold createOrder
  split
  · rename_i hgate
    simp [hgate]
  · rename_i hgate
    simp only [Bool.not_eq_true] at hgate
    simp [hgate]

/-! ### Claim theorems -/

/-- C1: for every order-creation request (whose reCAPTCHA gate does not
already reject it), a profile without an assigned campus, or a request
`campusId` that is absent or differs from the profile's assignment, yields a
403 error and leaves the order store unchanged; and every document the
endpoint persists has `campusId` equal to the submitting profile's campus
id. -/
theorem createOrder_campus_enforcement
    (secret : Option String) (verify : String → RecapResult)
    (userEmail : Option String) (prof : Profile) (newId : MongoId) (now : Nat)
    (req : CreateReq) (store : List OrderDoc)
    (hgate : recaptchaPasses secret verify req.recaptchaToken = true) :
    ((strTruthy prof.campusId = false ∨ strTruthy req.campusId = false ∨
        req.campusId ≠ prof.campusId) →
      ∃ e, createOrder secret verify userEmail prof newId now req = .error e ∧
        e.status = 403 ∧
        (createOrderApply secret verify userEmail prof newId now req store).fst = store) ∧
    (∀ d, createOrder secret verify userEmail prof newId now req = .ok d →
      some d.campusId = prof.campusId) := by
  constructor
  · intro hbad
    by_cases hp : strTruthy prof.campusId = true
    · have hcond : (!strTruthy req.campusId || decide (req.campusId ≠ prof.campusId)) = true := by
        rcases hbad with h | h | h
        · rw [hp] at h; exact absurd h (by simp)
        · simp [h]
        · simp [h]
      have hco : createOrder secret verify userEmail prof newId now req =
          .error ⟨403, "You can only place orders from your assigned campus. Please switch back to your campus in the navbar."⟩ := by
        unfold createOrder createOrderPostGate
        rw [if_pos hgate, if_neg (by simp [hp]), if_pos hcond]
      exact ⟨_, hco, rfl, by simp [createOrderApply, hco]⟩
    · have hco : createOrder secret verify userEmail prof newId now req =
          .error ⟨403, "No campus assigned to user profile"⟩ := by
        unfold createOrder createOrderPostGate
        rw [if_pos hgate, if_pos (by simp [Bool.eq_false_iff.mpr hp])]
      exact ⟨_, hco, rfl, by simp [createOrderApply, hco]⟩
  · intro d hok
    obtain ⟨hg, hpost⟩ := createOrder_ok_iff.mp hok
    obtain ⟨hpc, hrc, hceq, _⟩ := createOrderPostGate_ok_conds hpost
    have heq := createOrderPostGate_ok_eq hpost
    obtain ⟨c, hc, _⟩ := strTruthy_iff.mp hrc
    rw [heq]
    show some (req.campusId.getD "") = prof.campusId
    rw [hc, Option.getD_some, ← hceq, hc]

/-- C1 witness: a concrete mismatched-campus request is rejected with 403 and
no document is stored; a concrete matching request stores its own campus. -/
theorem createOrder_campus_enforcement_witness :
    (∃ e, createOrder none (fun _ => .success) none
        { role := .user, campusId := some "C1" } (.strId "o1") 3
        { campusId := some "C2", firstName := some "Ali", phone := some "0300",
          gender := some "male", grandTotal := some 1100 } = .error e ∧
      e.status = 403 ∧
      (createOrderApply none (fun _ => .success) none
        { role := .user, campusId := some "C1" } (.strId "o1") 3
        { campusId := some "C2", firstName := some "Ali", phone := some "0300",
          gender := some "male", grandTotal := some 1100 } []).fst = []) ∧
    (∀ d, createOrder none (fun _ => .success) none
        { role := .user, campusId := some "C1" } (.strId "o1") 3
        { campusId := some "C2", firstName := some "Ali", phone := some "0300",
          gender := some "male", grandTotal := some 1100 } = .ok d →
      some d.campusId = some "C1") := by
  have h := createOrder_campus_enforcement none (fun _ => .success) none
    { role := .user, campusId := some "C1" } (.strId "o1") 3
    { campusId := some "C2", firstName := some "Ali", phone := some "0300",
      gender := some "male", grandTotal := some 1100 } [] (by decide)
  exact ⟨h.1 (by decide), h.2⟩

/-- C2: a super admin's `PATCH /api/orders/:id` request is rejected with 403
before any lookup or write, for every store, identifier and status; the
store is returned unchanged. -/
theorem patch_superAdmin_always_forbidden
    (p : Profile) (store : List OrderDoc) (id : String) (status : Option String)
    (h : p.role = .superAdmin) :
    patchOrder p store id status = (store, .forbiddenSuper) ∧
    PatchResp.forbiddenSuper.httpStatus = 403 := by
  refine ⟨?_, rfl⟩
  unfold patchOrder
  rw [if_pos (by simp [isSuperAdmin, h])]

/-- A concrete pending order stored under a legacy string `_id`. -/
def sampleLegacyOrder : OrderDoc :=
  { mongoId := .strId "o1"
    campusId := "C1"
    firstName := "Ali"
    phone := "0300"
    gender := "male"
    grandTotal := 900
    cartItems := .str "2x Burger" }

/-- C2 witness: a concrete super admin patch of an existing pending order is
refused and the store keeps the order untouched. -/
theorem patch_superAdmin_always_forbidden_witness :
    patchOrder { role := .superAdmin } [sampleLegacyOrder] "o1" (some "accepted") =
      ([sampleLegacyOrder], .forbiddenSuper) ∧
    PatchResp.forbiddenSuper.httpStatus = 403 :=
  patch_superAdmin_always_forbidden _ _ _ _ rfl

/-- C5: once a request passes the reCAPTCHA gate and the campus check, the
absence (falsiness) of any of `firstName`, `phone`, `gender` or `grandTotal`
yields a 400 "Missing required order fields" error and the store is
unchanged. -/
theorem createOrder_required_fields
    (secret : Option String) (verify : String → RecapResult)
    (userEmail : Option String) (prof : Profile) (newId : MongoId) (now : Nat)
    (req : CreateReq) (store : List OrderDoc)
    (hgate : recaptchaPasses secret verify req.recaptchaToken = true)
    (hp : strTruthy prof.campusId = true)
    (hc : req.campusId = prof.campusId)
    (hmiss : (strTruthy req.firstName && strTruthy req.phone &&
        strTruthy req.gender && numTruthy req.grandTotal) = false) :
    createOrder secret verify userEmail prof newId now req =
      .error ⟨400, "Missing required order fields"⟩ ∧
    (createOrderApply secret verify userEmail prof newId now req store).fst = store := by
  have hco : createOrder secret verify userEmail prof newId now req =
      .error ⟨400, "Missing required order fields"⟩ := by
    unfold createOrder createOrderPostGate
    rw [if_pos hgate, if_neg (by simp [hp]),
      if_neg (by simp [hc, hp]), if_pos (by simp [hmiss])]
  exact ⟨hco, by simp [createOrderApply, hco]⟩

/-- C5 witness: a concrete submission with `gender` omitted fails with the
400 validation error and persists nothing. -/
theorem createOrder_required_fields_witness :
    createOrder none (fun _ => .success) none
        { role := .user, campusId := some "C1" } (.strId "o2") 4
        { campusId := some "C1", firstName := some "Ali", phone := some "0300",
          grandTotal := some 1100 } =
      .error ⟨400, "Missing required order fields"⟩ ∧
    (createOrderApply none (fun _ => .success) none
        { role := .user, campusId := some "C1" } (.strId "o2") 4
        { campusId := some "C1", firstName := some "Ali", phone := some "0300",
          grandTotal := some 1100 } []).fst = [] :=
  createOrder_required_fields none (fun _ => .success) none
    { role := .user, campusId := some "C1" } (.strId "o2") 4
    { campusId := some "C1", firstName := some "Ali", phone := some "0300",
      grandTotal := some 1100 } [] (by decide) (by decide) (by decide) (by decide)

/-- A valid creation request carrying a reCAPTCHA token. -/
def tokenReq : CreateReq :=
  { campusId := some "C1"
    firstName := some "Ali"
    phone := some "0300"
    gender := some "male"
    grandTotal := some 1100
    recaptchaToken := some "tok" }

/-- C4 counterexample: with a token supplied but no secret configured, the
verification service is never consulted — even a service that would report
failure does not stop the order, which is persisted. -/
theorem recaptcha_token_without_secret_skipped :
    ∃ d, createOrder none (fun _ => RecapResult.failure) none
        { role := .user, campusId := some "C1" } (.strId "o4") 5 tokenReq =
      .ok d :=
  ⟨_, rfl⟩

/-- C4 (amended): verification is skipped — the outcome is independent of
the verification service — whenever the token or the configured secret is
falsy; when both are truthy the service is consulted and a non-success
outcome (reported failure or thrown error) yields a 400 with nothing
persisted. -/
theorem recaptcha_gate_behaviour
    (secret : Option String) (userEmail : Option String) (prof : Profile)
    (newId : MongoId) (now : Nat) (req : CreateReq) (store : List OrderDoc) :
    ((strTruthy req.recaptchaToken && strTruthy secret) = false →
      ∀ v₁ v₂, createOrder secret v₁ userEmail prof newId now req =
        createOrder secret v₂ userEmail prof newId now req) ∧
    (∀ t, req.recaptchaToken = some t → t ≠ "" → strTruthy secret = true →
      ∀ v, v t ≠ .success →
        createOrder secret v userEmail prof newId now req =
          .error ⟨400, "reCAPTCHA verification failed"⟩ ∧
        (createOrderApply secret v userEmail prof newId now req store).fst = store) := by
  constructor
  · intro hcond v₁ v₂
    unfold createOrder recaptchaPasses
    rw [hcond]
    simp
  · intro t hteq htne hsec v hv
    have hpass : recaptchaPasses secret v req.recaptchaToken = false := by
      have h1 : strTruthy (some t) = true := by simp [strTruthy, htne]
      unfold recaptchaPasses
      rw [hteq, if_pos (by simp [h1, hsec])]
      simp [hv]
    have hco : createOrder secret v userEmail prof newId now req =
        .error ⟨400, "reCAPTCHA verification failed"⟩ := by
      unfold createOrder
      rw [hpass]
      simp
    exact ⟨hco, by simp [createOrderApply, hco]⟩

/-- C4 witness: concretely, with no secret the outcome is the same under a
failing and a succeeding service; with a secret configured, a failing
service yields the 400 error and leaves the store empty. -/
theorem recaptcha_gate_behaviour_witness :
    (createOrder none (fun _ => RecapResult.failure) none
        { role := .user, campusId := some "C1" } (.strId "o4") 5 tokenReq =
      createOrder none (fun _ => RecapResult.success) none
        { role := .user, campusId := some "C1" } (.strId "o4") 5 tokenReq) ∧
    (createOrder (some "sec") (fun _ => RecapResult.failure) none
        { role := .user, campusId := some "C1" } (.strId "o4") 5 tokenReq =
      .error ⟨400, "reCAPTCHA verification failed"⟩ ∧
    (createOrderApply (some "sec") (fun _ => RecapResult.failure) none
        { role := .user, campusId := some "C1" } (.strId "o4") 5 tokenReq []).fst = []) := by
  constructor
  · exact (recaptcha_gate_behaviour none none
      { role := .user, campusId := some "C1" } (.strId "o4") 5 tokenReq []).1
      (by decide) (fun _ => RecapResult.failure) (fun _ => RecapResult.success)
  · exact (recaptcha_gate_behaviour (some "sec") none
      { role := .user, campusId := some "C1" } (.strId "o4") 5 tokenReq []).2
      "tok" rfl (by decide) (by decide) (fun _ => RecapResult.failure) (by decide)

/-- A valid creation request whose `restaurantNames` list holds one blank
name. -/
def blankNamesReq : CreateReq :=
  { campusId := some "C1"
    firstName := some "Ali"
    phone := some "0300"
    gender := some "male"
    grandTotal := some 1100
    restaurantNames := some [" "] }

/-- C9 counterexample: a supplied non-empty `restaurantNames` list whose
only entry is blank stores the field with an empty-array value — the claim
that an empty array is never stored is false. -/
theorem restaurantNames_empty_array_stored :
    ∃ d, createOrder none (fun _ => RecapResult.success) none
        { role := .user, campusId := some "C1" } (.strId "o9") 6 blankNamesReq =
      .ok d ∧ d.restaurantNames = some [] :=
  ⟨_, rfl, by decide⟩

/-- C9 (amended): the stored restaurant-name set is obtained by trimming
each supplied name, dropping blanks, then de-duplicating; the field is
omitted when the list is absent or empty (but a non-empty all-blank list
stores an empty array, see the counterexample). Stored names are exactly
the non-blank trims of supplied names, without duplicates. -/
theorem restaurantNames_derivation
    (secret : Option String) (verify : String → RecapResult)
    (userEmail : Option String) (prof : Profile) (newId : MongoId) (now : Nat)
    (req : CreateReq) (d : OrderDoc)
    (hok : createOrder secret verify userEmail prof newId now req = .ok d) :
    (d.restaurantNames = none ↔
      (req.restaurantNames = none ∨ req.restaurantNames = some [])) ∧
    (∀ ns, d.restaurantNames = some ns →
      ns.Nodup ∧
      (∀ n ∈ ns, n ≠ "" ∧ ∃ m ∈ req.restaurantNames.getD [], jsTrim m = n) ∧
      (∀ m ∈ req.restaurantNames.getD [], jsTrim m ≠ "" → jsTrim m ∈ ns)) := by
  obtain ⟨-, hpost⟩ := createOrder_ok_iff.mp hok
  have hrn : d.restaurantNames = deriveRestaurantNames req.restaurantNames := by
    rw [createOrderPostGate_ok_eq hpost]
  rcases hreq : req.restaurantNames with _ | l
  · rw [hreq] at hrn
    simp only [deriveRestaurantNames] at hrn
    refine ⟨by simp [hrn], ?_⟩
    intro ns hns
    rw [hrn] at hns
    exact absurd hns (by simp)
  · cases l with
    | nil =>
      rw [hreq] at hrn
      simp only [deriveRestaurantNames, List.length_nil, gt_iff_lt,
        lt_self_iff_false, if_false] at hrn
      refine ⟨by simp [hrn], ?_⟩
      intro ns hns
      rw [hrn] at hns
      exact absurd hns (by simp)
    | cons a l' =>
      rw [hreq] at hrn
      simp only [deriveRestaurantNames] at hrn
      rw [if_pos (by simp)] at hrn
      refine ⟨by simp [hrn], ?_⟩
      intro ns hns
      rw [hrn] at hns
      have hns' : ns = dedupFirst [] (((a :: l').map jsTrim).filter (fun s => s ≠ "")) :=
        (Option.some.inj hns).symm
      subst hns'
      refine ⟨nodup_dedupFirst _ _, ?_, ?_⟩
      · intro n hn
        obtain ⟨hmem, -⟩ := (mem_dedupFirst _ _).mp hn
        rw [List.mem_filter] at hmem
        obtain ⟨hmap, hne⟩ := hmem
        obtain ⟨m, hm, hfm⟩ := List.mem_map.mp hmap
        exact ⟨by simpa using hne, m, by simp [hreq, hm], hfm⟩
      · intro m hm hne
        refine (mem_dedupFirst _ _).mpr ⟨?_, by simp⟩
        rw [List.mem_filter]
        exact ⟨List.mem_map.mpr ⟨m, by simpa [hreq] using hm, rfl⟩, by simpa using hne⟩

/-- A creation request with duplicate and blank restaurant names. -/
def namesReq : CreateReq :=
  { campusId := some "C1"
    firstName := some "Ali"
    phone := some "0300"
    gender := some "male"
    grandTotal := some 1100
    restaurantNames := some ["  Pizza Hut ", "Pizza Hut", " "] }

/-- The document the endpoint persists for `namesReq`. -/
def namesDoc : OrderDoc :=
  match createOrder none (fun _ => RecapResult.success) none
      { role := .user, campusId := some "C1" } (.strId "o9a") 6 namesReq with
  | .ok d => d
  | .error _ => default

/-- C9 (amended) witness: for a concrete duplicate-and-blank name list the
persisted field is the de-duplicated non-blank trims. -/
theorem restaurantNames_derivation_witness :
    (namesDoc.restaurantNames = none ↔
      (namesReq.restaurantNames = none ∨ namesReq.restaurantNames = some [])) ∧
    (∀ ns, namesDoc.restaurantNames = some ns →
      ns.Nodup ∧
      (∀ n ∈ ns, n ≠ "" ∧ ∃ m ∈ namesReq.restaurantNames.getD [], jsTrim m = n) ∧
      (∀ m ∈ namesReq.restaurantNames.getD [], jsTrim m ≠ "" → jsTrim m ∈ ns)) :=
  restaurantNames_derivation none (fun _ => RecapResult.success) none
    { role := .user, campusId := some "C1" } (.strId "o9a") 6 namesReq namesDoc rfl

/-- For a campus admin, `PATCH /api/orders/:id` reduces to the dual-id +
campus `updateOne` followed by the `findOne` of the same filter. -/
theorem patchOrder_campusAdmin_eq (p : Profile) (store : List OrderDoc)
    (id s : String) (hrole : p.role = .campusAdmin) (hs : s ≠ "") :
    patchOrder p store id (some s) =
      (match updateFirst
          (fun o => dualIdMatch id o.mongoId && some o.campusId = p.campusId)
          (fun o => { o with status := s }) store with
        | none => (store, PatchResp.notFound)
        | some store' =>
          match store'.find?
              (fun o => dualIdMatch id o.mongoId && some o.campusId = p.campusId) with
          | none => (store', PatchResp.notFoundAfter)
          | some d => (store', PatchResp.updated d)) := by
  unfold patchOrder patchFilter
  simp [isSuperAdmin, isCampusAdmin, hrole, strTruthy, hs]

/-- C6: for a campus-admin status update within scope, an order stored under
a legacy string `_id` is found by a request carrying that same string, an
order stored under an ObjectId is found by a request carrying its hex
rendering, and when no stored `_id` matches the request under either
interpretation the endpoint answers NotFound and returns the store
unchanged. -/
theorem patch_dual_identifier_lookup
    (p : Profile) (store : List OrderDoc) (id : String) (c s : String)
    (hrole : p.role = .campusAdmin) (hc : p.campusId = some c) (hs : s ≠ "") :
    ((∃ o ∈ store, o.mongoId = .strId id ∧ o.campusId = c) →
      ∃ d store', patchOrder p store id (some s) = (store', .updated d)) ∧
    (validObjectIdString id = true →
      (∃ o ∈ store, o.mongoId = .objId id ∧ o.campusId = c) →
      ∃ d store', patchOrder p store id (some s) = (store', .updated d)) ∧
    ((∀ o ∈ store, dualIdMatch id o.mongoId = false) →
      patchOrder p store id (some s) = (store, .notFound)) := by
  have hrun := patchOrder_campusAdmin_eq p store id s hrole hs
  have hpres : ∀ o : OrderDoc,
      (fun o => dualIdMatch id o.mongoId && some o.campusId = p.campusId) o = true →
      (fun o => dualIdMatch id o.mongoId && some o.campusId = p.campusId)
        ({ o with status := s }) = true := fun o h => h
  refine ⟨?_, ?_, ?_⟩
  · rintro ⟨o, ho, hid, hcamp⟩
    have hfo : (fun o => dualIdMatch id o.mongoId && some o.campusId = p.campusId) o = true := by
      simp [hid, dualIdMatch, hcamp, hc]
    obtain ⟨store', hupd⟩ := updateFirst_isSome
      (f := fun o => dualIdMatch id o.mongoId && some o.campusId = p.campusId)
      (g := fun o => { o with status := s }) ⟨o, ho, hfo⟩
    obtain ⟨d, hfind⟩ := updateFirst_find? hpres hupd
    exact ⟨d, store', by rw [hrun, hupd]; simp [hfind]⟩
  · rintro hvalid ⟨o, ho, hid, hcamp⟩
    have hfo : (fun o => dualIdMatch id o.mongoId && some o.campusId = p.campusId) o = true := by
      simp [hid, dualIdMatch, hvalid, hcamp, hc]
    obtain ⟨store', hupd⟩ := updateFirst_isSome
      (f := fun o => dualIdMatch id o.mongoId && some o.campusId = p.campusId)
      (g := fun o => { o with status := s }) ⟨o, ho, hfo⟩
    obtain ⟨d, hfind⟩ := updateFirst_find? hpres hupd
    exact ⟨d, store', by rw [hrun, hupd]; simp [hfind]⟩
  · intro hnone
    have hall : ∀ o ∈ store,
        (fun o => dualIdMatch id o.mongoId && some o.campusId = p.campusId) o = false := by
      intro o ho
      simp [hnone o ho]
    rw [hrun, updateFirst_eq_none hall]

/-- A concrete campus-admin profile for campus C1. -/
def caProf : Profile := { role := .campusAdmin, campusId := some "C1" }

/-- A concrete pending order stored under an ObjectId. -/
def sampleObjOrder : OrderDoc :=
  { mongoId := .objId "65a1b2c3d4e5f60718293a4b"
    campusId := "C1"
    firstName := "Zara"
    phone := "0301"
    gender := "female"
    grandTotal := 400
    cartItems := .str "1x Roll"
    createdAt := 2 }

/-- C6 witness: the legacy string id, the ObjectId hex rendering, and a
matching-nothing id behave as the theorem states on concrete stores. -/
theorem patch_dual_identifier_lookup_witness :
    (∃ d store', patchOrder caProf [sampleLegacyOrder] "o1" (some "accepted") =
      (store', .updated d)) ∧
    (∃ d store', patchOrder caProf [sampleObjOrder] "65a1b2c3d4e5f60718293a4b"
      (some "ready") = (store', .updated d)) ∧
    patchOrder caProf [sampleLegacyOrder, sampleObjOrder] "nomatch" (some "ready") =
      ([sampleLegacyOrder, sampleObjOrder], .notFound) := by
  refine ⟨?_, ?_, ?_⟩
  · exact (patch_dual_identifier_lookup caProf [sampleLegacyOrder] "o1" "C1" "accepted"
      rfl rfl (by decide)).1 ⟨sampleLegacyOrder, by simp, rfl, rfl⟩
  · exact (patch_dual_identifier_lookup caProf [sampleObjOrder]
      "65a1b2c3d4e5f60718293a4b" "C1" "ready" rfl rfl (by decide)).2.1 (by decide)
      ⟨sampleObjOrder, by simp, rfl, rfl⟩
  · exact (patch_dual_identifier_lookup caProf [sampleLegacyOrder, sampleObjOrder]
      "nomatch" "C1" "ready" rfl rfl (by decide)).2.2 (by decide)

/-- Whatever the role and query, `GET /api/orders` output is sorted newest
first. -/
theorem listOrders_sorted (p : Profile) (store : List OrderDoc)
    (statusQ : Option String) (limit : Nat) :
    (listOrders p store statusQ limit).Sorted byNewest := by
  unfold listOrders mongoLimit
  split
  · exact List.sorted_insertionSort byNewest _
  · exact List.Pairwise.sublist (List.take_sublist _ _)
      (List.sorted_insertionSort byNewest _)

/-- Every order returned by `GET /api/orders` is a stored order passing the
role-derived filter. -/
theorem mem_listOrders {p : Profile} {store : List OrderDoc}
    {statusQ : Option String} {limit : Nat} {o : OrderDoc}
    (ho : o ∈ listOrders p store statusQ limit) :
    o ∈ store ∧ listFilter p statusQ o = true := by
  have ho' : o ∈ (store.filter (listFilter p statusQ)).insertionSort byNewest := by
    unfold listOrders mongoLimit at ho
    split at ho
    · exact ho
    · exact List.take_subset _ _ ho
  rw [List.mem_insertionSort] at ho'
  exact List.mem_filter.mp ho'

/-- C7: a campus admin's `GET /api/orders` returns only stored orders of the
admin's own campus, newest first, and — when the limit does not truncate —
exactly the stored orders of that campus; a super admin gets all stored
orders, newest first. -/
theorem listOrders_campus_scoping
    (p : Profile) (store : List OrderDoc) (limit : Nat) (c : String) :
    (p.role = .campusAdmin → p.campusId = some c →
      (listOrders p store none limit).Sorted byNewest ∧
      (∀ o ∈ listOrders p store none limit, o ∈ store ∧ o.campusId = c) ∧
      ((store.filter (fun o => o.campusId = c)).length ≤ limit →
        List.Perm (listOrders p store none limit)
          (store.filter (fun o => o.campusId = c)))) ∧
    (p.role = .superAdmin →
      (listOrders p store none limit).Sorted byNewest ∧
      (store.length ≤ limit → List.Perm (listOrders p store none limit) store)) := by
  constructor
  · intro hrole hc
    have hfe : store.filter (listFilter p none) =
        store.filter (fun o => o.campusId = c) := by
      apply List.filter_congr
      intro o _
      simp [listFilter, listBaseFilter, isSuperAdmin, hrole, hc, strTruthy]
    refine ⟨listOrders_sorted p store none limit, ?_, ?_⟩
    · intro o ho
      obtain ⟨hmem, hflt⟩ := mem_listOrders ho
      refine ⟨hmem, ?_⟩
      simp [listFilter, listBaseFilter, isSuperAdmin, hrole, hc, strTruthy] at hflt
      exact hflt
    · intro hlen
      unfold listOrders
      rw [hfe, mongoLimit_of_length_le (by rw [List.length_insertionSort]; exact hlen)]
      exact List.perm_insertionSort byNewest _
  · intro hrole
    have hfe : store.filter (listFilter p none) = store := by
      have : store.filter (listFilter p none) = store.filter (fun _ => true) := by
        apply List.filter_congr
        intro o _
        simp [listFilter, listBaseFilter, isSuperAdmin, hrole, strTruthy]
      rw [this, List.filter_true]
    refine ⟨listOrders_sorted p store none limit, ?_⟩
    intro hlen
    unfold listOrders
    rw [hfe, mongoLimit_of_length_le (by rw [List.length_insertionSort]; exact hlen)]
    exact List.perm_insertionSort byNewest _

/-- Concrete stored orders across two campuses. -/
def wOrder1 : OrderDoc :=
  { mongoId := .strId "w1"
    campusId := "C1"
    firstName := "A"
    phone := "1"
    gender := "male"
    grandTotal := 10
    cartItems := .str "x"
    createdAt := 5 }

def wOrder2 : OrderDoc :=
  { mongoId := .strId "w2"
    campusId := "C2"
    firstName := "B"
    phone := "2"
    gender := "female"
    grandTotal := 20
    cartItems := .str "y"
    createdAt := 9 }

def wOrder3 : OrderDoc :=
  { mongoId := .strId "w3"
    campusId := "C1"
    firstName := "C"
    phone := "3"
    gender := "male"
    grandTotal := 30
    cartItems := .str "z"
    createdAt := 1 }

def wStore : List OrderDoc := [wOrder1, wOrder2, wOrder3]

/-- A concrete super-admin profile. -/
def saProf : Profile := { role := .superAdmin }

/-- C7 witness: on a concrete mixed-campus store the campus admin for C1
gets exactly the C1 orders newest first, and the super admin a permutation
of the whole store, sorted. -/
theorem listOrders_campus_scoping_witness :
    ((listOrders caProf wStore none 50).Sorted byNewest ∧
      (∀ o ∈ listOrders caProf wStore none 50, o ∈ wStore ∧ o.campusId = "C1") ∧
      List.Perm (listOrders caProf wStore none 50)
        (wStore.filter (fun o => o.campusId = "C1"))) ∧
    ((listOrders saProf wStore none 50).Sorted byNewest ∧
      List.Perm (listOrders saProf wStore none 50) wStore) := by
  constructor
  · have h := (listOrders_campus_scoping caProf wStore 50 "C1").1 rfl rfl
    exact ⟨h.1, h.2.1, h.2.2 (by decide)⟩
  · have h := (listOrders_campus_scoping saProf wStore 50 "C1").2 rfl
    exact ⟨h.1, h.2 (by decide)⟩

/-- C10: `GET /api/orders` imposes no role restriction beyond profile
loading — every recognised role (including `user` and `restaurantManager`)
receives the 200 listing, never an error; for non-super-admins the listing
is scoped to the profile's campus. -/
theorem getOrders_no_role_restriction
    (p : Profile) (store : List OrderDoc) (statusQ : Option String) (limit : Nat)
    (h : recognizedRole p.role = true) :
    getOrdersEndpoint (some p) store statusQ limit =
      .ok (listOrders p store statusQ limit) ∧
    (∀ e, getOrdersEndpoint (some p) store statusQ limit ≠ .error e) ∧
    (p.role ≠ .superAdmin →
      ∀ o ∈ listOrders p store statusQ limit, some o.campusId = p.campusId) := by
  have h1 : getOrdersEndpoint (some p) store statusQ limit =
      .ok (listOrders p store statusQ limit) := by
    simp [getOrdersEndpoint, loadUserProfile, h, Except.map]
  refine ⟨h1, fun e he => by rw [h1] at he; exact absurd he (by simp), ?_⟩
  intro hns o ho
  obtain ⟨-, hflt⟩ := mem_listOrders ho
  simp only [listFilter] at hflt
  have hbase : listBaseFilter p o = true := by
    cases hb : listBaseFilter p o
    · rw [hb] at hflt; simp at hflt
    · rfl
  have hsa : isSuperAdmin p = false := by
    simp [isSuperAdmin]
    intro hcon
    exact absurd hcon hns
  simpa [listBaseFilter, hsa] using hbase

/-- A concrete restaurant-manager profile assigned to campus C1. -/
def rmProf : Profile :=
  { role := .restaurantManager, campusId := some "C1", restaurantId := some "R1" }

/-- C10 witness: a restaurant manager — neither campus admin nor super
admin — still gets the 200 campus-scoped listing on a concrete store. -/
theorem getOrders_no_role_restriction_witness :
    getOrdersEndpoint (some rmProf) wStore none 50 =
      .ok (listOrders rmProf wStore none 50) ∧
    (∀ e, getOrdersEndpoint (some rmProf) wStore none 50 ≠ .error e) ∧
    (∀ o ∈ listOrders rmProf wStore none 50, some o.campusId = rmProf.campusId) := by
  have h := getOrders_no_role_restriction rmProf wStore none 50 (by decide)
  exact ⟨h.1, h.2.1, h.2.2 (by decide)⟩

/-- C8: an order created with a non-empty structured cart that mentions a
restaurant, read back through that restaurant's scoped listing (when the
limit does not truncate), appears with `cartItems` narrowed to exactly the
line items matching the restaurant's id or name and `itemsTotal` equal to
the sum of `price * quantity` over exactly those returned items. -/
theorem restaurant_listing_roundtrip
    (secret : Option String) (verify : String → RecapResult)
    (userEmail : Option String) (prof : Profile) (newId : MongoId) (now : Nat)
    (req : CreateReq) (d : OrderDoc) (items : List CartItem)
    (mgr : Profile) (restaurants : List RestaurantDoc) (r : RestaurantDoc)
    (store : List OrderDoc) (rid : String) (limit : Nat)
    (hok : createOrder secret verify userEmail prof newId now req = .ok d)
    (hitems : req.cartItems = .arr items) (hne : items ≠ [])
    (hmgr : mgr.role = .restaurantManager) (hmr : mgr.restaurantId = some rid)
    (hfind : restaurants.find? (fun r' => dualIdMatch rid r'.mongoId) = some r)
    (hd : d ∈ store)
    (hhas : ∃ it ∈ items, it.restaurantId = some rid)
    (hlim : (store.filter (restFindFilter rid r.name)).length ≤ limit) :
    ∃ outs, restaurantOrders mgr restaurants store rid limit = .ok outs ∧
      ∃ out ∈ outs, out.base = d ∧
        out.cartItems = .arr (items.filter (itemBelongs rid r.name)) ∧
        (∀ it ∈ items.filter (itemBelongs rid r.name),
          itemBelongs rid r.name it = true) ∧
        out.itemsTotal = itemsSum (items.filter (itemBelongs rid r.name)) := by
  have harr : d.cartItemsArray = items := by
    rw [createOrderPostGate_ok_eq (createOrder_ok_iff.mp hok).2]
    simp [storedCartArray, hitems]
  have hro : restaurantOrders mgr restaurants store rid limit =
      .ok ((mongoLimit limit
        ((store.filter (restFindFilter rid r.name)).insertionSort byNewest)).map
          (restTransform rid r.name)) := by
    unfold restaurantOrders
    simp [isRestaurantManager, hmgr, hmr, hfind]
  have hany : items.any (fun it => it.restaurantId = some rid) = true := by
    obtain ⟨it, hit, he⟩ := hhas
    exact List.any_eq_true.mpr ⟨it, hit, by simp [he]⟩
  have hdfilt : restFindFilter rid r.name d = true := by
    simp [restFindFilter, harr, hany]
  have hdlim : d ∈ mongoLimit limit
      ((store.filter (restFindFilter rid r.name)).insertionSort byNewest) := by
    rw [mongoLimit_of_length_le (by rw [List.length_insertionSort]; exact hlim)]
    exact (List.mem_insertionSort byNewest).mpr (List.mem_filter.mpr ⟨hd, hdfilt⟩)
  have htr : restTransform rid r.name d =
      { base := d
        cartItems := .arr (items.filter (itemBelongs rid r.name))
        itemsTotal := itemsSum (items.filter (itemBelongs rid r.name)) } := by
    unfold restTransform
    rw [harr, if_pos (by cases items with
      | nil => exact absurd rfl hne
      | cons a l => simp)]
  refine ⟨_, hro, restTransform rid r.name d, List.mem_map_of_mem _ hdlim,
    by rw [htr], by rw [htr], ?_, by rw [htr]⟩
  intro it hit
  exact (List.mem_filter.mp hit).2

/-- Two structured line items from different restaurants. -/
def pizzaItem : CartItem :=
  { restaurantId := some "R1", restaurantName := some "Pizza Hut",
    price := 500, quantity := 2 }

def kfcItem : CartItem :=
  { restaurantId := some "R2", restaurantName := some "KFC",
    price := 300, quantity := 1 }

/-- A creation request with a two-restaurant structured cart. -/
def cartReq : CreateReq :=
  { campusId := some "C1"
    firstName := some "Ali"
    phone := some "0300"
    gender := some "male"
    grandTotal := some 1300
    cartItems := .arr [pizzaItem, kfcItem] }

/-- The document persisted for `cartReq`. -/
def cartDoc : OrderDoc :=
  match createOrder none (fun _ => RecapResult.success) none
      { role := .user, campusId := some "C1" }
      (.objId "65a1b2c3d4e5f60718293a4b") 8 cartReq with
  | .ok d => d
  | .error _ => default

/-- The R1 restaurant record. -/
def pizzaRest : RestaurantDoc := { mongoId := .strId "R1", name := "Pizza Hut" }

set_option maxRecDepth 8000

/-- C8 witness: the concrete two-restaurant order read back through R1's
listing is narrowed to the R1 line item with the matching recomputed
total. -/
theorem restaurant_listing_roundtrip_witness :
    ∃ outs, restaurantOrders rmProf [pizzaRest] [cartDoc] "R1" 50 = .ok outs ∧
      ∃ out ∈ outs, out.base = cartDoc ∧
        out.cartItems = .arr ([pizzaItem, kfcItem].filter (itemBelongs "R1" "Pizza Hut")) ∧
        (∀ it ∈ [pizzaItem, kfcItem].filter (itemBelongs "R1" "Pizza Hut"),
          itemBelongs "R1" "Pizza Hut" it = true) ∧
        out.itemsTotal = itemsSum ([pizzaItem, kfcItem].filter (itemBelongs "R1" "Pizza Hut")) :=
  restaurant_listing_roundtrip none (fun _ => RecapResult.success) none
    { role := .user, campusId := some "C1" } (.objId "65a1b2c3d4e5f60718293a4b") 8
    cartReq cartDoc [pizzaItem, kfcItem] rmProf [pizzaRest] pizzaRest [cartDoc]
    "R1" 50 rfl rfl (by decide) rfl rfl (by decide) (List.mem_singleton.mpr rfl)
    ⟨pizzaItem, by decide, rfl⟩ (by decide)

/-- C3 (code bug): the status-update filter for restaurant managers reads
`cartItems.restaurantId`, but the creation endpoint always stores
`cartItems` as a string (the structured list goes to `cartItemsArray`), so
a manager's update of an endpoint-created order containing their
restaurant's structured line item answers NotFound instead of succeeding:
concretely, the created `cartDoc` carries an R1 line item in
`cartItemsArray`, yet R1's manager cannot update it. -/
theorem patch_restaurantManager_misses_created_orders :
    createOrder none (fun _ => RecapResult.success) none
        { role := .user, campusId := some "C1" }
        (.objId "65a1b2c3d4e5f60718293a4b") 8 cartReq = .ok cartDoc ∧
    (∃ it ∈ cartDoc.cartItemsArray, it.restaurantId = some "R1") ∧
    rmProf.restaurantId = some "R1" ∧
    (∃ s, cartDoc.cartItems = .str s) ∧
    patchOrder rmProf [cartDoc] "65a1b2c3d4e5f60718293a4b" (some "accepted") =
      ([cartDoc], .notFound) := by
  refine ⟨rfl, ⟨pizzaItem, by decide, rfl⟩, rfl, ⟨stringifyCart [pizzaItem, kfcItem], by decide⟩, by decide⟩
